import Mathlib

/-!
Shallow embedding of the name-service pallet
(`src/frame/name-service/src/lib.rs`).  The dispatchable functions of the
pallet are modelled as explicit state-passing functions over a `State`
record holding the three storage maps (`Commitments`, `Registrations`,
`Resolvers`) and a simple ledger (free and reserved balances per account,
plus the fee beneficiary's pot).  Account ids, balances, block numbers and
hashes are `Nat`.  The cryptographic hash functions (blake2_256 of
`name ‖ secret`, of `name`, and of `parent_hash ‖ label_hash`) are taken as
opaque function parameters, since the code uses them only as deterministic
maps.  Bodies of the helper modules (`commit_reveal.rs`, `misc.rs`,
`registrar.rs`, `resolver.rs`, `subnodes.rs`) are not part of the excerpt;
those helpers are modelled from the specification and marked as such.
-/

namespace NameService

abbrev AccountId := Nat
abbrev Balance := Nat
abbrev BlockNumber := Nat
abbrev NameHash := Nat
abbrev CommitmentHash := Nat

/-- The constants of the pallet `Config` trait (lib.rs lines 56-107). -/
structure Config where
  commitmentDeposit : Balance
  minCommitmentAge : BlockNumber
  maxCommitmentAge : BlockNumber
  subNodeDeposit : Balance
  tierThreeLetters : Balance
  tierFourLetters : Balance
  tierDefault : Balance
  blocksPerRegistrationPeriod : BlockNumber
  feePerRegistrationPeriod : Balance
  deriving Repr, DecidableEq

/-- A stored commitment: `Commitment<AccountId, Balance, BlockNumber>`
(storage item `Commitments`, lib.rs lines 111-119).  Modelled from the spec:
attributes `depositor`, `owner`, `created_at`, together with the reserved
deposit amount. -/
structure Commitment where
  depositor : AccountId
  owner : AccountId
  deposit : Balance
  created_at : BlockNumber
  deriving Repr, DecidableEq

/-- A stored registration: `Registration<AccountId, Balance, BlockNumber>`
(storage item `Registrations`, lib.rs lines 121-129).  Modelled from the
spec: attributes `owner`, `controller`, optional `expiry`, optional
`deposit`. -/
structure Registration where
  owner : AccountId
  controller : AccountId
  expiry : Option BlockNumber
  deposit : Option Balance
  deriving Repr, DecidableEq

/-- The pallet error enum (lib.rs lines 156-188), extended with the two
framework-level failures that the dispatchables can surface: a failed
origin check and an insufficient-balance failure from the currency
trait. -/
inductive Err where
  | BadOrigin
  | InsufficientFunds
  | AlreadyCommitted
  | TooEarlyToReveal
  | CommitmentNotExpired
  | CommitmentNotFound
  | RegistrationExists
  | RegistrationNotFound
  | RegistrationRegistrantNotFound
  | NotRegistrationRegistrant
  | NotRegistrationOwner
  | NotRegistrationRegistrantOrOwner
  | RegistrationExpired
  | RegistrationNotExpired
  | RegistrationHasNoExpiry
  | LabelTooShort
  | AlreadySet
  deriving Repr, DecidableEq

/-- The complete observable state: the current block number, the three
storage maps, and the ledger collaborator (free balance, reserved balance,
and the fee beneficiary pot). -/
structure State where
  now : BlockNumber
  commitments : CommitmentHash → Option Commitment
  registrations : NameHash → Option Registration
  resolvers : NameHash → Option AccountId
  free : AccountId → Balance
  reserved : AccountId → Balance
  feePot : Balance

/-- Point update of a keyed map. -/
def fupdate {α : Type} (f : Nat → Option α) (k : Nat) (v : Option α) :
    Nat → Option α :=
  fun x => if x = k then v else f x

/-- Point update of a balance map. -/
def bupdate (f : Nat → Nat) (k : Nat) (v : Nat) : Nat → Nat :=
  fun x => if x = k then v else f x

/-- `Currency::reserve`: move `amount` from `who`'s free balance to its
reserved balance, failing when the free balance is insufficient. -/
def reserve (who : AccountId) (amount : Balance) (s : State) : Option State :=
  if amount ≤ s.free who then
    some { s with
      free := bupdate s.free who (s.free who - amount)
      reserved := bupdate s.reserved who (s.reserved who + amount) }
  else none

/-- `Currency::unreserve`: move `min amount reserved` from `who`'s reserved
balance back to its free balance (never fails; clamps like the trait). -/
def unreserve (who : AccountId) (amount : Balance) (s : State) : State :=
  let m := min amount (s.reserved who)
  { s with
    free := bupdate s.free who (s.free who + m)
    reserved := bupdate s.reserved who (s.reserved who - m) }

/-- Withdraw a non-refundable fee from `who` and hand it to the
`RegistrationFeeHandler` beneficiary, failing when the free balance is
insufficient. -/
def payFee (who : AccountId) (amount : Balance) (s : State) : Option State :=
  if amount ≤ s.free who then
    some { s with
      free := bupdate s.free who (s.free who - amount)
      feePot := s.feePot + amount }
  else none

/-- Modelled from the spec: `is_owner` of `misc.rs` (not in the excerpt) —
whether `who` is the registration's owner. -/
def is_owner (r : Registration) (who : AccountId) : Bool :=
  r.owner == who

/-- Modelled from the spec: `is_controller` of `misc.rs` (not in the
excerpt) — the controller check "is owner or current controller". -/
def is_controller (r : Registration) (who : AccountId) : Bool :=
  r.controller == who || r.owner == who

/-- Modelled from the spec: `is_expired` of `misc.rs` (not in the excerpt)
— a registration with no expiry is permanent and never expired; otherwise
it is expired once the current block has reached the expiry. -/
def is_expired (r : Registration) (now : BlockNumber) : Bool :=
  match r.expiry with
  | none => false
  | some e => decide (e ≤ now)

/-- Modelled from the spec: `is_commitment_expired` of `commit_reveal.rs`
(not in the excerpt) — expired iff `now − created_at > MaxCommitmentAge`. -/
def is_commitment_expired (cfg : Config) (c : Commitment) (now : BlockNumber) :
    Bool :=
  decide (c.created_at + cfg.maxCommitmentAge < now)

/-- Modelled from the spec: the `FeeSchedule` (`registration_fee` of
`misc.rs`, not in the excerpt) — a length-tiered flat fee plus a per-period
fee. -/
def registration_fee (cfg : Config) (name : List Nat) (periods : Nat) :
    Balance :=
  let base :=
    if name.length == 3 then cfg.tierThreeLetters
    else if name.length == 4 then cfg.tierFourLetters
    else cfg.tierDefault
  base + periods * cfg.feePerRegistrationPeriod

/-- Modelled from the spec: `do_register` of `registrar.rs` (not in the
excerpt) — install a registration, first returning any previous
registration's deposit to its previous owner (the `force_register`
doc comment, lib.rs lines 193-196). -/
def do_register (nh : NameHash) (owner controller : AccountId)
    (expiry : Option BlockNumber) (dep : Option Balance) (s : State) : State :=
  let s1 :=
    match s.registrations nh with
    | some old =>
      match old.deposit with
      | some d => unreserve old.owner d s
      | none => s
    | none => s
  { s1 with
    registrations := fupdate s1.registrations nh (some ⟨owner, controller, expiry, dep⟩) }

/-- Modelled from the spec: `do_deregister` of `registrar.rs` (not in the
excerpt) — delete the Registration and the Resolver entry, refunding the
deposit (if any) to the last owner.  Infallible, matching its use without
`?` in `force_deregister` (lib.rs line 216). -/
def do_deregister (nh : NameHash) (s : State) : State :=
  let s1 :=
    match s.registrations nh with
    | some r =>
      match r.deposit with
      | some d => unreserve r.owner d s
      | none => s
    | none => s
  { s1 with
    registrations := fupdate s1.registrations nh none
    resolvers := fupdate s1.resolvers nh none }

/-- Modelled from the spec: `do_commit` of `commit_reveal.rs` (not in the
excerpt) — fail `AlreadyCommitted` when the hash is taken, otherwise
reserve `CommitmentDeposit` from the sender and store
`{depositor, owner, created_at = now}`. -/
def do_commit (cfg : Config) (sender owner : AccountId) (h : CommitmentHash)
    (s : State) : State × Option Err :=
  if (s.commitments h).isSome then (s, some .AlreadyCommitted)
  else
    match reserve sender cfg.commitmentDeposit s with
    | none => (s, some .InsufficientFunds)
    | some s1 =>
      ({ s1 with
          commitments := fupdate s1.commitments h
            (some ⟨sender, owner, cfg.commitmentDeposit, s.now⟩) }, none)

/-- Modelled from the spec: `do_remove_commitment` of `commit_reveal.rs`
(not in the excerpt) — delete the commitment and unreserve the depositor's
deposit. -/
def do_remove_commitment (h : CommitmentHash) (c : Commitment) (s : State) :
    State :=
  let s1 := unreserve c.depositor c.deposit s
  { s1 with commitments := fupdate s1.commitments h none }

/-- `remove_commitment` dispatch (lib.rs lines 266-279): fail
`CommitmentNotFound` when absent, `CommitmentNotExpired` when the
commitment has not passed `MaxCommitmentAge`, else delete and refund.
Callable by any signed account, so the sender plays no further role. -/
def remove_commitment (cfg : Config) (_sender : AccountId)
    (h : CommitmentHash) (s : State) : State × Option Err :=
  match s.commitments h with
  | none => (s, some .CommitmentNotFound)
  | some c =>
    if is_commitment_expired cfg c s.now then (do_remove_commitment h c s, none)
    else (s, some .CommitmentNotExpired)

/-- Modelled from the spec: `do_reveal` of `commit_reveal.rs` (not in the
excerpt) — look up the commitment by `hash(name ‖ secret)`, enforce the
minimum age, validate the label, reject an existing registration, charge
the non-refundable fee, register with owner taken from the commitment
(controller = owner, expiry = now + periods × BlocksPerRegistrationPeriod),
and consume the commitment, refunding its deposit. -/
def do_reveal (cfg : Config) (chF : List Nat → Nat → CommitmentHash)
    (nhF : List Nat → NameHash) (sender : AccountId) (name : List Nat)
    (secret : Nat) (periods : Nat) (s : State) : State × Option Err :=
  let ch := chF name secret
  match s.commitments ch with
  | none => (s, some .CommitmentNotFound)
  | some c =>
    if s.now < c.created_at + cfg.minCommitmentAge then
      (s, some .TooEarlyToReveal)
    else if name.length < 3 then (s, some .LabelTooShort)
    else
      let nh := nhF name
      if (s.registrations nh).isSome then (s, some .RegistrationExists)
      else
        match payFee sender (registration_fee cfg name periods) s with
        | none => (s, some .InsufficientFunds)
        | some s1 =>
          let expiry := s.now + periods * cfg.blocksPerRegistrationPeriod
          let s2 := do_register nh c.owner c.owner (some expiry) none s1
          (do_remove_commitment ch c s2, none)

/-- Modelled from the spec: `do_transfer_ownership` of `registrar.rs` (not
in the excerpt) — set `owner = new_owner`; the deposit stays reserved
against the same name, not re-reserved. -/
def do_transfer_ownership (nh : NameHash) (new_owner : AccountId) (s : State) :
    State :=
  match s.registrations nh with
  | some r =>
    { s with
      registrations := fupdate s.registrations nh (some { r with owner := new_owner }) }
  | none => s

/-- `transfer` dispatch (lib.rs lines 284-295): fail
`RegistrationNotFound` when absent, `NotRegistrationOwner` unless the
sender is the owner, else transfer ownership. -/
def transfer (sender new_owner : AccountId) (nh : NameHash) (s : State) :
    State × Option Err :=
  match s.registrations nh with
  | none => (s, some .RegistrationNotFound)
  | some r =>
    if is_owner r sender then (do_transfer_ownership nh new_owner s, none)
    else (s, some .NotRegistrationOwner)

/-- `set_controller` dispatch (lib.rs lines 300-315): `try_mutate` on the
registration; fail `RegistrationNotFound` when absent; the authorization
check is `is_controller` but the error raised is `NotRegistrationOwner`;
on success update the controller. -/
def set_controller (sender : AccountId) (nh : NameHash)
    (new_controller : AccountId) (s : State) : State × Option Err :=
  match s.registrations nh with
  | none => (s, some .RegistrationNotFound)
  | some r =>
    if is_controller r sender then
      ({ s with
          registrations := fupdate s.registrations nh
            (some { r with controller := new_controller }) },
        none)
    else (s, some .NotRegistrationOwner)

/-- Modelled from the spec: `do_set_record` of `resolver.rs` (not in the
excerpt) — fail `AlreadySet` when the resolver already maps the name hash
to this address, else upsert the entry. -/
def do_set_record (nh : NameHash) (address : AccountId) (s : State) :
    State × Option Err :=
  if s.resolvers nh == some address then (s, some .AlreadySet)
  else ({ s with resolvers := fupdate s.resolvers nh (some address) }, none)

/-- `set_record` dispatch (lib.rs lines 331-343): fail
`RegistrationNotFound` when absent; authorization is `is_controller`
(owner or controller), raising `NotRegistrationOwner`; then
`do_set_record`. -/
def set_record (sender : AccountId) (nh : NameHash) (address : AccountId)
    (s : State) : State × Option Err :=
  match s.registrations nh with
  | none => (s, some .RegistrationNotFound)
  | some r =>
    if is_controller r sender then do_set_record nh address s
    else (s, some .NotRegistrationOwner)

/-- Modelled from the spec: `do_renew` of `registrar.rs` (not in the
excerpt) — fail `RegistrationNotFound` when absent,
`RegistrationHasNoExpiry` for permanent registrations,
`RegistrationExpired` past expiry (no grace period); charge the sender
`periods × FeePerRegistrationPeriod`; extend the expiry by
`periods × BlocksPerRegistrationPeriod`. -/
def do_renew (cfg : Config) (sender : AccountId) (nh : NameHash)
    (periods : Nat) (s : State) : State × Option Err :=
  match s.registrations nh with
  | none => (s, some .RegistrationNotFound)
  | some r =>
    match r.expiry with
    | none => (s, some .RegistrationHasNoExpiry)
    | some e =>
      if is_expired r s.now then (s, some .RegistrationExpired)
      else
        match payFee sender (periods * cfg.feePerRegistrationPeriod) s with
        | none => (s, some .InsufficientFunds)
        | some s1 =>
          ({ s1 with
              registrations := fupdate s1.registrations nh
                (some { r with
                  expiry := some (e + periods * cfg.blocksPerRegistrationPeriod) }) },
            none)

/-- `deregister` dispatch (lib.rs lines 345-355): fail
`RegistrationNotFound` when absent; while the registration is not expired
only the owner may call; then `do_deregister`. -/
def deregister (sender : AccountId) (nh : NameHash) (s : State) :
    State × Option Err :=
  match s.registrations nh with
  | none => (s, some .RegistrationNotFound)
  | some r =>
    if !is_expired r s.now && !is_owner r sender then
      (s, some .NotRegistrationOwner)
    else (do_deregister nh s, none)

/-- Modelled from the spec: `subnode_hash` of `subnodes.rs` (not in the
excerpt) — the composite hash `hash(parent_hash ‖ label_hash)`, taken as an
opaque binary hash function `h2`. -/
def subnode_hash (h2 : NameHash → NameHash → NameHash)
    (parent_hash label_hash : NameHash) : NameHash :=
  h2 parent_hash label_hash

/-- `deregister_subnode` dispatch (lib.rs lines 368-387): look up the
subnode registration at the composite hash, failing
`RegistrationNotFound`; a caller other than the subnode's owner may only
proceed when the parent registration no longer exists
(`RegistrationNotExpired` otherwise); then `do_deregister`. -/
def deregister_subnode (h2 : NameHash → NameHash → NameHash)
    (sender : AccountId) (parent_hash label_hash : NameHash) (s : State) :
    State × Option Err :=
  let snh := subnode_hash h2 parent_hash label_hash
  match s.registrations snh with
  | none => (s, some .RegistrationNotFound)
  | some r =>
    if !is_owner r sender && (s.registrations parent_hash).isSome then
      (s, some .RegistrationNotExpired)
    else (do_deregister snh s, none)

/-- Modelled from the spec: `do_set_subnode_record` of `subnodes.rs` (not
in the excerpt) — fail `LabelTooShort` for a label shorter than 3, require
the sender to control the parent, reject an existing subnode, reserve
`SubNodeDeposit` and create the subnode registration. -/
def do_set_subnode_record (cfg : Config)
    (h2 : NameHash → NameHash → NameHash) (nhF : List Nat → NameHash)
    (sender : AccountId) (parent_hash : NameHash) (label : List Nat)
    (s : State) : State × Option Err :=
  if label.length < 3 then (s, some .LabelTooShort)
  else
    match s.registrations parent_hash with
    | none => (s, some .RegistrationNotFound)
    | some pr =>
      if !is_controller pr sender then (s, some .NotRegistrationOwner)
      else
        let snh := subnode_hash h2 parent_hash (nhF label)
        if (s.registrations snh).isSome then (s, some .RegistrationExists)
        else
          match reserve sender cfg.subNodeDeposit s with
          | none => (s, some .InsufficientFunds)
          | some s1 =>
            (do_register snh sender sender none (some cfg.subNodeDeposit) s1, none)

/-- Modelled from the spec: `do_set_subnode_owner` of `subnodes.rs` (not
in the excerpt) — require the sender to control the parent;
create/overwrite the subnode's ownership. -/
def do_set_subnode_owner (h2 : NameHash → NameHash → NameHash)
    (sender : AccountId) (parent_hash label_hash : NameHash)
    (new_owner : AccountId) (s : State) : State × Option Err :=
  match s.registrations parent_hash with
  | none => (s, some .RegistrationNotFound)
  | some pr =>
    if !is_controller pr sender then (s, some .NotRegistrationOwner)
    else
      let snh := subnode_hash h2 parent_hash label_hash
      match s.registrations snh with
      | some r =>
        ({ s with
            registrations := fupdate s.registrations snh (some { r with owner := new_owner }) },
          none)
      | none => (do_register snh new_owner new_owner none none s, none)

/-- `force_register` dispatch (lib.rs lines 197-207): only the
`RegistrationManager` origin (modelled as the boolean outcome of the
origin check); `do_register` with `controller = owner` and no deposit. -/
def force_register (isManager : Bool) (nh : NameHash) (who : AccountId)
    (maybe_expiry : Option BlockNumber) (s : State) : State × Option Err :=
  if isManager then (do_register nh who who maybe_expiry none s, none)
  else (s, some .BadOrigin)

/-- `force_deregister` dispatch (lib.rs lines 213-218): only the
`RegistrationManager` origin; `do_deregister` unconditionally. -/
def force_deregister (isManager : Bool) (nh : NameHash) (s : State) :
    State × Option Err :=
  if isManager then (do_deregister nh s, none)
  else (s, some .BadOrigin)

/-! Concrete configuration, hash functions and states used to instantiate
the theorems below on closed inputs. -/

/-- A concrete configuration: deposit 5, min age 10, max age 100, subnode
deposit 2, tier fees 30/20/10, 50 blocks per period, period fee 7. -/
def cfgEx : Config :=
  ⟨5, 10, 100, 2, 30, 20, 10, 50, 7⟩

/-- A concrete stand-in for `blake2_256(name ‖ secret)`. -/
def chEx : List Nat → Nat → CommitmentHash :=
  fun name secret => name.length + secret

/-- A concrete stand-in for `blake2_256(name)`. -/
def nhEx : List Nat → NameHash :=
  fun name => 1000 + name.length

/-- A concrete stand-in for `blake2_256(parent_hash ‖ label_hash)`. -/
def h2Ex : NameHash → NameHash → NameHash :=
  fun p l => 2000 + p + l

/-- A concrete state family over the current block number: three pending
commitments (hashes 13 and 14 deposited by account 2, hash 15 deposited
by account 9 for itself), a registration at 600 expiring at block 50, a
permanent registration at 601, a subnode of 600 with label hash 9, and an
orphan subnode of the absent parent 700. -/
def mkS (now : BlockNumber) : State where
  now := now
  commitments := fun h =>
    if h = 13 then some ⟨2, 3, 5, 8⟩
    else if h = 14 then some ⟨2, 3, 5, 15⟩
    else if h = 15 then some ⟨9, 9, 5, 8⟩
    else none
  registrations := fun nh =>
    if nh = 600 then some ⟨6, 7, some 50, some 4⟩
    else if nh = 601 then some ⟨6, 7, none, none⟩
    else if nh = 1004 then some ⟨6, 7, some 90, none⟩
    else if nh = 2609 then some ⟨8, 8, none, some 2⟩
    else if nh = 2709 then some ⟨8, 8, none, some 2⟩
    else none
  resolvers := fun nh => if nh = 600 then some 42 else none
  free := fun a => if a = 2 then 0 else 500
  reserved := fun a =>
    if a = 2 then 5
    else if a = 6 then 4
    else if a = 8 then 4
    else if a = 9 then 5
    else 0
  feePot := 0

/-! Theorems for the claims. -/

/-- C4: the registration fee is a pure function of name length and
requested periods — length 3 costs `TierThreeLetters`, length 4
`TierFourLetters`, length ≥ 5 `TierDefault`, in every case plus
`periods × FeePerRegistrationPeriod`; in particular a 3-character name for
1 period costs `TierThreeLetters + 1 × FeePerRegistrationPeriod`. -/
theorem C4_registration_fee (cfg : Config) (name : List Nat) (periods : Nat) :
    (name.length = 3 → registration_fee cfg name periods
      = cfg.tierThreeLetters + periods * cfg.feePerRegistrationPeriod) ∧
    (name.length = 4 → registration_fee cfg name periods
      = cfg.tierFourLetters + periods * cfg.feePerRegistrationPeriod) ∧
    (5 ≤ name.length → registration_fee cfg name periods
      = cfg.tierDefault + periods * cfg.feePerRegistrationPeriod) ∧
    (name.length = 3 → registration_fee cfg name 1
      = cfg.tierThreeLetters + 1 * cfg.feePerRegistrationPeriod) := by
  refine ⟨fun h => by simp [registration_fee, h], fun h => by simp [registration_fee, h],
    fun h => ?_, fun h => by simp [registration_fee, h]⟩
  have h3 : (name.length == 3) = false := by simp; omega
  have h4 : (name.length == 4) = false := by simp; omega
  simp [registration_fee, h3, h4]

/-- Witness for C4 at a concrete 3-character name and one period. -/
theorem C4_registration_fee_witness :
    registration_fee cfgEx [9, 9, 9] 1
      = cfgEx.tierThreeLetters + 1 * cfgEx.feePerRegistrationPeriod :=
  (C4_registration_fee cfgEx [9, 9, 9] 1).2.2.2 rfl

/-- C10: `force_deregister` with the `RegistrationManager` origin always
succeeds, for every name hash — including one with no registration — and
unconditionally clears the registration and resolver entries. -/
theorem C10_force_deregister_total (nh : NameHash) (s : State) :
    (force_deregister true nh s).2 = none ∧
    ((force_deregister true nh s).1).registrations nh = none ∧
    ((force_deregister true nh s).1).resolvers nh = none := by
  refine ⟨rfl, ?_, ?_⟩ <;> simp [force_deregister, do_deregister, fupdate]

/-- C3: a second `commit` with a hash already stored fails
`AlreadyCommitted` and changes nothing; a first `commit` reserves
`CommitmentDeposit` from the depositor and stores
`{depositor, owner, created_at = now}`. -/
theorem C3_commit_unique (cfg : Config) (sender owner : AccountId)
    (h : CommitmentHash) (s : State) :
    ((s.commitments h).isSome →
      do_commit cfg sender owner h s = (s, some .AlreadyCommitted)) ∧
    (s.commitments h = none →
      cfg.commitmentDeposit ≤ s.free sender →
      (do_commit cfg sender owner h s).2 = none ∧
      ((do_commit cfg sender owner h s).1).commitments h
        = some ⟨sender, owner, cfg.commitmentDeposit, s.now⟩ ∧
      ((do_commit cfg sender owner h s).1).reserved sender
        = s.reserved sender + cfg.commitmentDeposit ∧
      ((do_commit cfg sender owner h s).1).free sender
        = s.free sender - cfg.commitmentDeposit) := by
  constructor
  · intro hs
    simp [do_commit, hs]
  · intro hn hd
    simp [do_commit, hn, reserve, hd, fupdate, bupdate]

/-- Witness for C3: on the concrete state, re-committing hash 13 fails
`AlreadyCommitted` and committing the fresh hash 55 stores the commitment
and moves the deposit to the reserve. -/
theorem C3_commit_unique_witness :
    do_commit cfgEx 1 3 13 (mkS 20) = (mkS 20, some .AlreadyCommitted) ∧
    ((do_commit cfgEx 1 3 55 (mkS 20)).2 = none ∧
      ((do_commit cfgEx 1 3 55 (mkS 20)).1).commitments 55
        = some ⟨1, 3, cfgEx.commitmentDeposit, (mkS 20).now⟩ ∧
      ((do_commit cfgEx 1 3 55 (mkS 20)).1).reserved 1
        = (mkS 20).reserved 1 + cfgEx.commitmentDeposit ∧
      ((do_commit cfgEx 1 3 55 (mkS 20)).1).free 1
        = (mkS 20).free 1 - cfgEx.commitmentDeposit) :=
  ⟨(C3_commit_unique cfgEx 1 3 13 (mkS 20)).1 rfl,
    (C3_commit_unique cfgEx 1 3 55 (mkS 20)).2 rfl (by decide)⟩

/-- C1: for a stored commitment at `hash(name ‖ secret)` whose minimum age
has passed, a successful `reveal` creates a Registration keyed by the name
hash with owner taken from the commitment, `controller = owner`, and
`expiry = now + periods × BlocksPerRegistrationPeriod`, charges the
non-refundable fee from the caller, deletes the Commitment and refunds the
commitment deposit to the depositor; it fails `LabelTooShort` when the
name is shorter than 3 and `RegistrationExists` when a Registration for
the name hash already exists. -/
theorem C1_reveal_registers (cfg : Config)
    (chF : List Nat → Nat → CommitmentHash) (nhF : List Nat → NameHash)
    (sender : AccountId) (name : List Nat) (secret periods : Nat) (s : State)
    (c : Commitment) (hc : s.commitments (chF name secret) = some c)
    (hage : c.created_at + cfg.minCommitmentAge ≤ s.now) :
    (3 ≤ name.length →
      s.registrations (nhF name) = none →
      registration_fee cfg name periods ≤ s.free sender →
      c.deposit ≤ s.reserved c.depositor →
      (do_reveal cfg chF nhF sender name secret periods s).2 = none ∧
      ((do_reveal cfg chF nhF sender name secret periods s).1).registrations (nhF name)
        = some ⟨c.owner, c.owner,
            some (s.now + periods * cfg.blocksPerRegistrationPeriod), none⟩ ∧
      ((do_reveal cfg chF nhF sender name secret periods s).1).commitments (chF name secret)
        = none ∧
      ((do_reveal cfg chF nhF sender name secret periods s).1).feePot
        = s.feePot + registration_fee cfg name periods ∧
      (∀ a, ((do_reveal cfg chF nhF sender name secret periods s).1).free a
        = (if a = sender then s.free a - registration_fee cfg name periods
            else s.free a)
          + (if a = c.depositor then c.deposit else 0)) ∧
      ((do_reveal cfg chF nhF sender name secret periods s).1).reserved c.depositor
        = s.reserved c.depositor - c.deposit) ∧
    (name.length < 3 →
      do_reveal cfg chF nhF sender name secret periods s
        = (s, some .LabelTooShort)) ∧
    (3 ≤ name.length →
      (s.registrations (nhF name)).isSome →
      do_reveal cfg chF nhF sender name secret periods s
        = (s, some .RegistrationExists)) := by
  have hnlt : ¬ (s.now < c.created_at + cfg.minCommitmentAge) :=
    Nat.not_lt.mpr hage
  refine ⟨?_, ?_, ?_⟩
  · intro h3 hreg hfee hdep
    have h3' : ¬ (name.length < 3) := Nat.not_lt.mpr h3
    refine ⟨?_, ?_, ?_, ?_, ?_, ?_⟩
    · simp only [do_reveal, hc]
      rw [if_neg hnlt, if_neg h3']
      simp [payFee, hfee, hreg]
    · simp only [do_reveal, hc]
      rw [if_neg hnlt, if_neg h3']
      simp [payFee, hfee, do_register, do_remove_commitment, unreserve,
        fupdate, bupdate, hreg]
    · simp only [do_reveal, hc]
      rw [if_neg hnlt, if_neg h3']
      simp [payFee, hfee, do_register, do_remove_commitment, unreserve,
        fupdate, bupdate, hreg]
    · simp only [do_reveal, hc]
      rw [if_neg hnlt, if_neg h3']
      simp [payFee, hfee, do_register, do_remove_commitment, unreserve,
        fupdate, bupdate, hreg]
    · intro a
      simp only [do_reveal, hc]
      rw [if_neg hnlt, if_neg h3']
      by_cases h1 : a = c.depositor
      · subst h1
        by_cases h2 : c.depositor = sender
        · subst h2
          simp [payFee, hfee, do_register, do_remove_commitment, unreserve,
            fupdate, bupdate, hreg, Nat.min_eq_left hdep]
        · simp [payFee, hfee, do_register, do_remove_commitment, unreserve,
            fupdate, bupdate, hreg, Nat.min_eq_left hdep, h2]
      · by_cases h2 : a = sender
        · subst h2
          simp [payFee, hfee, do_register, do_remove_commitment, unreserve,
            fupdate, bupdate, hreg, h1]
        · simp [payFee, hfee, do_register, do_remove_commitment, unreserve,
            fupdate, bupdate, hreg, h1, h2]
    · simp only [do_reveal, hc]
      rw [if_neg hnlt, if_neg h3']
      simp [payFee, hfee, do_register, do_remove_commitment, unreserve,
        fupdate, bupdate, hreg, Nat.min_eq_left hdep]
  · intro hlt
    simp only [do_reveal, hc]
    rw [if_neg hnlt, if_pos hlt]
  · intro h3 hreg
    have h3' : ¬ (name.length < 3) := Nat.not_lt.mpr h3
    simp only [do_reveal, hc]
    rw [if_neg hnlt, if_neg h3']
    simp [hreg]

/-- Witness for C1 on the concrete state at block 20: revealing
`[9, 9, 9]` with secret 10 (commitment hash 13) registers name hash 1003
for owner 3, charges the fee 37 from caller 1 and refunds depositor 2;
account 9 revealing its own commitment (hash 15, secret 12) both pays the
fee and receives its deposit back; revealing the 2-character name `[9, 9]`
with secret 11 fails `LabelTooShort`; revealing `[9, 9, 9, 9]` with
secret 9 fails `RegistrationExists` because name hash 1004 is taken. -/
theorem C1_reveal_registers_witness :
    ((do_reveal cfgEx chEx nhEx 1 [9, 9, 9] 10 1 (mkS 20)).2 = none ∧
      ((do_reveal cfgEx chEx nhEx 1 [9, 9, 9] 10 1 (mkS 20)).1).registrations (nhEx [9, 9, 9])
        = some ⟨3, 3, some ((mkS 20).now + 1 * cfgEx.blocksPerRegistrationPeriod), none⟩ ∧
      ((do_reveal cfgEx chEx nhEx 1 [9, 9, 9] 10 1 (mkS 20)).1).commitments (chEx [9, 9, 9] 10)
        = none ∧
      ((do_reveal cfgEx chEx nhEx 1 [9, 9, 9] 10 1 (mkS 20)).1).feePot
        = (mkS 20).feePot + registration_fee cfgEx [9, 9, 9] 1 ∧
      ((do_reveal cfgEx chEx nhEx 1 [9, 9, 9] 10 1 (mkS 20)).1).free 1
        = (mkS 20).free 1 - registration_fee cfgEx [9, 9, 9] 1 ∧
      ((do_reveal cfgEx chEx nhEx 1 [9, 9, 9] 10 1 (mkS 20)).1).free 2
        = (mkS 20).free 2 + 5 ∧
      ((do_reveal cfgEx chEx nhEx 1 [9, 9, 9] 10 1 (mkS 20)).1).reserved 2
        = (mkS 20).reserved 2 - 5) ∧
    ((do_reveal cfgEx chEx nhEx 9 [9, 9, 9] 12 1 (mkS 20)).2 = none ∧
      ((do_reveal cfgEx chEx nhEx 9 [9, 9, 9] 12 1 (mkS 20)).1).free 9
        = (mkS 20).free 9 - registration_fee cfgEx [9, 9, 9] 1 + 5 ∧
      ((do_reveal cfgEx chEx nhEx 9 [9, 9, 9] 12 1 (mkS 20)).1).reserved 9
        = (mkS 20).reserved 9 - 5) ∧
    do_reveal cfgEx chEx nhEx 1 [9, 9] 11 1 (mkS 20)
      = (mkS 20, some .LabelTooShort) ∧
    do_reveal cfgEx chEx nhEx 1 [9, 9, 9, 9] 9 1 (mkS 20)
      = (mkS 20, some .RegistrationExists) := by
  have t := (C1_reveal_registers cfgEx chEx nhEx 1 [9, 9, 9] 10 1 (mkS 20)
    ⟨2, 3, 5, 8⟩ rfl (by decide)).1 (by decide) rfl (by decide) (by decide)
  have ts := (C1_reveal_registers cfgEx chEx nhEx 9 [9, 9, 9] 12 1 (mkS 20)
    ⟨9, 9, 5, 8⟩ rfl (by decide)).1 (by decide) rfl (by decide) (by decide)
  refine ⟨⟨t.1, t.2.1, t.2.2.1, t.2.2.2.1, ?_, ?_, t.2.2.2.2.2⟩,
    ⟨ts.1, ?_, ts.2.2.2.2.2⟩,
    (C1_reveal_registers cfgEx chEx nhEx 1 [9, 9] 11 1 (mkS 20) ⟨2, 3, 5, 8⟩
      rfl (by decide)).2.1 (by decide),
    (C1_reveal_registers cfgEx chEx nhEx 1 [9, 9, 9, 9] 9 1 (mkS 20)
      ⟨2, 3, 5, 8⟩ rfl (by decide)).2.2 (by decide) rfl⟩
  · simpa using t.2.2.2.2.1 1
  · simpa using t.2.2.2.2.1 2
  · simpa using ts.2.2.2.2.1 9

/-- C2: for a commitment created at `t`, `reveal` before
`t + MinCommitmentAge` fails `TooEarlyToReveal` and `remove_commitment` at
any time not strictly after `t + MaxCommitmentAge` fails
`CommitmentNotExpired`, both leaving the commitment in place;
`remove_commitment` of an expired commitment by any caller deletes the
entry and refunds the depositor. -/
theorem C2_window_enforcement (cfg : Config)
    (chF : List Nat → Nat → CommitmentHash) (nhF : List Nat → NameHash)
    (sender : AccountId) (name : List Nat) (secret periods : Nat)
    (h : CommitmentHash) (s : State) (c : Commitment) :
    (s.commitments (chF name secret) = some c →
      s.now < c.created_at + cfg.minCommitmentAge →
      do_reveal cfg chF nhF sender name secret periods s
        = (s, some .TooEarlyToReveal)) ∧
    (s.commitments h = some c →
      ¬ (c.created_at + cfg.maxCommitmentAge < s.now) →
      remove_commitment cfg sender h s = (s, some .CommitmentNotExpired)) ∧
    (s.commitments h = some c →
      c.created_at + cfg.maxCommitmentAge < s.now →
      c.deposit ≤ s.reserved c.depositor →
      (remove_commitment cfg sender h s).2 = none ∧
      ((remove_commitment cfg sender h s).1).commitments h = none ∧
      ((remove_commitment cfg sender h s).1).free c.depositor
        = s.free c.depositor + c.deposit ∧
      ((remove_commitment cfg sender h s).1).reserved c.depositor
        = s.reserved c.depositor - c.deposit) := by
  refine ⟨?_, ?_, ?_⟩
  · intro hc hlt
    simp only [do_reveal, hc]
    rw [if_pos hlt]
  · intro hc hn
    simp [remove_commitment, hc, is_commitment_expired, hn]
  · intro hc hgt hdep
    simp [remove_commitment, hc, is_commitment_expired, hgt,
      do_remove_commitment, unreserve, fupdate, bupdate, Nat.min_eq_left hdep]

/-- Witness for C2: at block 20 the commitment at hash 14 (created at 15)
cannot be revealed yet and the commitment at hash 13 (created at 8) cannot
be removed; at block 200 removing the commitment at hash 13 succeeds,
deletes the entry and refunds depositor 2. -/
theorem C2_window_enforcement_witness :
    do_reveal cfgEx chEx nhEx 1 [9, 9, 9] 11 1 (mkS 20)
      = (mkS 20, some .TooEarlyToReveal) ∧
    remove_commitment cfgEx 1 13 (mkS 20)
      = (mkS 20, some .CommitmentNotExpired) ∧
    ((remove_commitment cfgEx 1 13 (mkS 200)).2 = none ∧
      ((remove_commitment cfgEx 1 13 (mkS 200)).1).commitments 13 = none ∧
      ((remove_commitment cfgEx 1 13 (mkS 200)).1).free 2
        = (mkS 200).free 2 + 5 ∧
      ((remove_commitment cfgEx 1 13 (mkS 200)).1).reserved 2
        = (mkS 200).reserved 2 - 5) :=
  ⟨(C2_window_enforcement cfgEx chEx nhEx 1 [9, 9, 9] 11 1 14 (mkS 20)
      ⟨2, 3, 5, 15⟩).1 rfl (by decide),
    (C2_window_enforcement cfgEx chEx nhEx 1 [9, 9, 9] 11 1 13 (mkS 20)
      ⟨2, 3, 5, 8⟩).2.1 rfl (by decide),
    (C2_window_enforcement cfgEx chEx nhEx 1 [9, 9, 9] 11 1 13 (mkS 200)
      ⟨2, 3, 5, 8⟩).2.2 rfl (by decide) (by decide)⟩

/-- C6: `deregister` of an absent name hash fails `RegistrationNotFound`;
by a non-owner while the registration is not expired it fails
`NotRegistrationOwner`; once expired any signed caller succeeds, and a
successful call deletes the Registration and the Resolver entry and
refunds the deposit to the last owner. -/
theorem C6_deregister_auth (sender : AccountId) (nh : NameHash) (s : State)
    (r : Registration) :
    (s.registrations nh = none →
      deregister sender nh s = (s, some .RegistrationNotFound)) ∧
    (s.registrations nh = some r → is_expired r s.now = false →
      r.owner ≠ sender →
      deregister sender nh s = (s, some .NotRegistrationOwner)) ∧
    (s.registrations nh = some r → is_expired r s.now = true →
      (deregister sender nh s).2 = none ∧
      ((deregister sender nh s).1).registrations nh = none ∧
      ((deregister sender nh s).1).resolvers nh = none ∧
      (∀ d, r.deposit = some d → d ≤ s.reserved r.owner →
        ((deregister sender nh s).1).free r.owner = s.free r.owner + d ∧
        ((deregister sender nh s).1).reserved r.owner
          = s.reserved r.owner - d)) := by
  refine ⟨?_, ?_, ?_⟩
  · intro hn
    simp [deregister, hn]
  · intro hr hexp hown
    simp [deregister, hr, hexp, is_owner, hown]
  · intro hr hexp
    refine ⟨?_, ?_, ?_, ?_⟩
    · simp [deregister, hr, hexp]
    · simp [deregister, hr, hexp, do_deregister, fupdate]
    · simp [deregister, hr, hexp, do_deregister, fupdate]
    · intro d hd hdep
      simp [deregister, hr, hexp, do_deregister, hd, unreserve, fupdate,
        bupdate, Nat.min_eq_left hdep]

/-- Witness for C6 on the registration at name hash 600 (owner 6, expiry
block 50, deposit 4): caller 1 is rejected at block 20, succeeds at block
60 with the entry and its resolver record cleared and the deposit refunded
to owner 6, and name hash 999 is not found. -/
theorem C6_deregister_auth_witness :
    deregister 1 999 (mkS 20) = (mkS 20, some .RegistrationNotFound) ∧
    deregister 1 600 (mkS 20) = (mkS 20, some .NotRegistrationOwner) ∧
    ((deregister 1 600 (mkS 60)).2 = none ∧
      ((deregister 1 600 (mkS 60)).1).registrations 600 = none ∧
      ((deregister 1 600 (mkS 60)).1).resolvers 600 = none ∧
      ((deregister 1 600 (mkS 60)).1).free 6 = (mkS 60).free 6 + 4 ∧
      ((deregister 1 600 (mkS 60)).1).reserved 6
        = (mkS 60).reserved 6 - 4) := by
  have t1 := (C6_deregister_auth 1 999 (mkS 20) ⟨6, 7, some 50, some 4⟩).1 rfl
  have t2 := (C6_deregister_auth 1 600 (mkS 20) ⟨6, 7, some 50, some 4⟩).2.1
    rfl (by decide) (by decide)
  have t3 := (C6_deregister_auth 1 600 (mkS 60) ⟨6, 7, some 50, some 4⟩).2.2
    rfl (by decide)
  exact ⟨t1, t2, t3.1, t3.2.1, t3.2.2.1,
    (t3.2.2.2 4 rfl (by decide)).1, (t3.2.2.2 4 rfl (by decide)).2⟩

/-- C5: `deregister_subnode` fails `RegistrationNotFound` when no subnode
registration exists at `hash(parent_hash ‖ label_hash)`; a non-owner
caller fails `RegistrationNotExpired` while the parent registration still
exists and succeeds once the parent is gone; the subnode's own owner may
always deregister it; a successful call deletes the subnode entry (and its
resolver record) and refunds its deposit. -/
theorem C5_subnode_cleanup (h2 : NameHash → NameHash → NameHash)
    (sender : AccountId) (parent_hash label_hash : NameHash) (s : State)
    (r : Registration) :
    (s.registrations (subnode_hash h2 parent_hash label_hash) = none →
      deregister_subnode h2 sender parent_hash label_hash s
        = (s, some .RegistrationNotFound)) ∧
    (s.registrations (subnode_hash h2 parent_hash label_hash) = some r →
      r.owner ≠ sender → (s.registrations parent_hash).isSome →
      deregister_subnode h2 sender parent_hash label_hash s
        = (s, some .RegistrationNotExpired)) ∧
    (s.registrations (subnode_hash h2 parent_hash label_hash) = some r →
      s.registrations parent_hash = none →
      (deregister_subnode h2 sender parent_hash label_hash s).2 = none ∧
      ((deregister_subnode h2 sender parent_hash label_hash s).1).registrations
        (subnode_hash h2 parent_hash label_hash) = none ∧
      ((deregister_subnode h2 sender parent_hash label_hash s).1).resolvers
        (subnode_hash h2 parent_hash label_hash) = none ∧
      (∀ d, r.deposit = some d → d ≤ s.reserved r.owner →
        ((deregister_subnode h2 sender parent_hash label_hash s).1).free r.owner
          = s.free r.owner + d)) ∧
    (s.registrations (subnode_hash h2 parent_hash label_hash) = some r →
      r.owner = sender →
      (deregister_subnode h2 sender parent_hash label_hash s).2 = none ∧
      ((deregister_subnode h2 sender parent_hash label_hash s).1).registrations
        (subnode_hash h2 parent_hash label_hash) = none) := by
  refine ⟨?_, ?_, ?_, ?_⟩
  · intro hn
    simp [deregister_subnode, hn]
  · intro hr hown hp
    simp [deregister_subnode, hr, is_owner, hown, hp]
  · intro hr hp
    refine ⟨?_, ?_, ?_, ?_⟩
    · simp [deregister_subnode, hr, hp]
    · simp [deregister_subnode, hr, hp, do_deregister, fupdate]
    · simp [deregister_subnode, hr, hp, do_deregister, fupdate]
    · intro d hd hdep
      simp [deregister_subnode, hr, hp, do_deregister, hd, unreserve,
        fupdate, bupdate, Nat.min_eq_left hdep]
  · intro hr hown
    constructor
    · simp [deregister_subnode, hr, is_owner, hown]
    · simp [deregister_subnode, hr, is_owner, hown, do_deregister, fupdate]

/-- Witness for C5: with the composite hash `h2Ex 600 9 = 2609` the
subnode of the live parent 600 cannot be removed by the stranger 1; the
orphan subnode `h2Ex 700 9 = 2709` of the absent parent 700 can, with its
deposit 2 refunded to owner 8; owner 8 can always remove its subnode; an
absent subnode (label hash 77) is not found. -/
theorem C5_subnode_cleanup_witness :
    deregister_subnode h2Ex 1 600 77 (mkS 20)
      = (mkS 20, some .RegistrationNotFound) ∧
    deregister_subnode h2Ex 1 600 9 (mkS 20)
      = (mkS 20, some .RegistrationNotExpired) ∧
    ((deregister_subnode h2Ex 1 700 9 (mkS 20)).2 = none ∧
      ((deregister_subnode h2Ex 1 700 9 (mkS 20)).1).registrations 2709 = none ∧
      ((deregister_subnode h2Ex 1 700 9 (mkS 20)).1).resolvers 2709 = none ∧
      ((deregister_subnode h2Ex 1 700 9 (mkS 20)).1).free 8
        = (mkS 20).free 8 + 2) ∧
    ((deregister_subnode h2Ex 8 600 9 (mkS 20)).2 = none ∧
      ((deregister_subnode h2Ex 8 600 9 (mkS 20)).1).registrations 2609 = none) := by
  have t1 := (C5_subnode_cleanup h2Ex 1 600 77 (mkS 20)
    ⟨8, 8, none, some 2⟩).1 rfl
  have t2 := (C5_subnode_cleanup h2Ex 1 600 9 (mkS 20)
    ⟨8, 8, none, some 2⟩).2.1 rfl (by decide) rfl
  have t3 := (C5_subnode_cleanup h2Ex 1 700 9 (mkS 20)
    ⟨8, 8, none, some 2⟩).2.2.1 rfl rfl
  have t4 := (C5_subnode_cleanup h2Ex 8 600 9 (mkS 20)
    ⟨8, 8, none, some 2⟩).2.2.2 rfl rfl
  exact ⟨t1, t2, ⟨t3.1, t3.2.1, t3.2.2.1, t3.2.2.2 2 rfl (by decide)⟩, t4⟩

/-- C7: `transfer` by a non-owner fails `NotRegistrationOwner`, and
`set_controller` and `set_record` by a caller who is neither owner nor
current controller fail the same `Not*` error, in every case leaving
state unchanged; on success `transfer` sets `owner = new_owner` with the
deposit staying reserved against the same name, `set_controller` updates
the controller, and `set_record` fails `AlreadySet` when the resolved
address is unchanged and otherwise upserts the Resolver entry. -/
theorem C7_authorization (sender new_owner new_controller address : AccountId)
    (nh : NameHash) (s : State) (r : Registration) :
    (s.registrations nh = some r → r.owner ≠ sender →
      transfer sender new_owner nh s = (s, some .NotRegistrationOwner)) ∧
    (s.registrations nh = some r → r.owner = sender →
      (transfer sender new_owner nh s).2 = none ∧
      ((transfer sender new_owner nh s).1).registrations nh
        = some { r with owner := new_owner } ∧
      ((transfer sender new_owner nh s).1).free = s.free ∧
      ((transfer sender new_owner nh s).1).reserved = s.reserved) ∧
    (s.registrations nh = some r → r.owner ≠ sender →
      r.controller ≠ sender →
      set_controller sender nh new_controller s
        = (s, some .NotRegistrationOwner)) ∧
    (s.registrations nh = some r → (r.owner = sender ∨ r.controller = sender) →
      (set_controller sender nh new_controller s).2 = none ∧
      ((set_controller sender nh new_controller s).1).registrations nh
        = some { r with controller := new_controller }) ∧
    (s.registrations nh = some r → r.owner ≠ sender →
      r.controller ≠ sender →
      set_record sender nh address s = (s, some .NotRegistrationOwner)) ∧
    (s.registrations nh = some r → (r.owner = sender ∨ r.controller = sender) →
      s.resolvers nh = some address →
      set_record sender nh address s = (s, some .AlreadySet)) ∧
    (s.registrations nh = some r → (r.owner = sender ∨ r.controller = sender) →
      s.resolvers nh ≠ some address →
      set_record sender nh address s
        = ({ s with resolvers := fupdate s.resolvers nh (some address) }, none)) := by
  refine ⟨?_, ?_, ?_, ?_, ?_, ?_, ?_⟩
  · intro hr hown
    simp [transfer, hr, is_owner, hown]
  · intro hr hown
    refine ⟨?_, ?_, ?_, ?_⟩ <;>
      simp [transfer, hr, is_owner, hown, do_transfer_ownership, fupdate]
  · intro hr hown hctl
    simp [set_controller, hr, is_controller, hown, hctl]
  · intro hr hauth
    have hc : is_controller r sender = true := by
      rcases hauth with h | h <;> simp [is_controller, h]
    constructor <;> simp [set_controller, hr, hc, fupdate]
  · intro hr hown hctl
    simp [set_record, hr, is_controller, hown, hctl]
  · intro hr hauth hres
    have hc : is_controller r sender = true := by
      rcases hauth with h | h <;> simp [is_controller, h]
    simp [set_record, hr, hc, do_set_record, hres]
  · intro hr hauth hres
    have hc : is_controller r sender = true := by
      rcases hauth with h | h <;> simp [is_controller, h]
    simp [set_record, hr, hc, do_set_record, hres]

/-- Witness for C7 on the registration at name hash 600 (owner 6,
controller 7, resolver record 42): the stranger 1 fails all three calls;
owner 6 transfers to 4; controller 7 re-points the controller to 5;
setting the resolver to 42 again fails `AlreadySet` while 43 upserts. -/
theorem C7_authorization_witness :
    transfer 1 4 600 (mkS 20) = (mkS 20, some .NotRegistrationOwner) ∧
    ((transfer 6 4 600 (mkS 20)).2 = none ∧
      ((transfer 6 4 600 (mkS 20)).1).registrations 600
        = some ⟨4, 7, some 50, some 4⟩ ∧
      ((transfer 6 4 600 (mkS 20)).1).free = (mkS 20).free ∧
      ((transfer 6 4 600 (mkS 20)).1).reserved = (mkS 20).reserved) ∧
    set_controller 1 600 5 (mkS 20) = (mkS 20, some .NotRegistrationOwner) ∧
    ((set_controller 7 600 5 (mkS 20)).2 = none ∧
      ((set_controller 7 600 5 (mkS 20)).1).registrations 600
        = some ⟨6, 5, some 50, some 4⟩) ∧
    set_record 1 600 42 (mkS 20) = (mkS 20, some .NotRegistrationOwner) ∧
    set_record 7 600 42 (mkS 20) = (mkS 20, some .AlreadySet) ∧
    set_record 7 600 43 (mkS 20)
      = ({ mkS 20 with resolvers := fupdate (mkS 20).resolvers 600 (some 43) },
          none) := by
  have t := C7_authorization 1 4 5 42 600 (mkS 20) ⟨6, 7, some 50, some 4⟩
  have t6 := C7_authorization 6 4 5 42 600 (mkS 20) ⟨6, 7, some 50, some 4⟩
  have t7 := C7_authorization 7 4 5 42 600 (mkS 20) ⟨6, 7, some 50, some 4⟩
  have t7b := C7_authorization 7 4 5 43 600 (mkS 20) ⟨6, 7, some 50, some 4⟩
  exact ⟨t.1 rfl (by decide),
    t6.2.1 rfl rfl,
    t.2.2.1 rfl (by decide) (by decide),
    t7.2.2.2.1 rfl (Or.inr rfl),
    t.2.2.2.2.1 rfl (by decide) (by decide),
    t7.2.2.2.2.2.1 rfl (Or.inr rfl) rfl,
    t7b.2.2.2.2.2.2 rfl (Or.inr rfl) (by decide)⟩

/-- C8: `renew` on a permanent registration (no expiry) fails
`RegistrationHasNoExpiry`; past the expiry (no grace tolerance) it fails
`RegistrationExpired`; on success it charges the caller
`periods × FeePerRegistrationPeriod` and extends the expiry by
`periods × BlocksPerRegistrationPeriod`, leaving owner, controller and
deposit unchanged. -/
theorem C8_renew (cfg : Config) (sender : AccountId) (nh : NameHash)
    (periods : Nat) (s : State) (r : Registration) :
    (s.registrations nh = some r → r.expiry = none →
      do_renew cfg sender nh periods s = (s, some .RegistrationHasNoExpiry)) ∧
    (∀ e, s.registrations nh = some r → r.expiry = some e → e ≤ s.now →
      do_renew cfg sender nh periods s = (s, some .RegistrationExpired)) ∧
    (∀ e, s.registrations nh = some r → r.expiry = some e → s.now < e →
      periods * cfg.feePerRegistrationPeriod ≤ s.free sender →
      (do_renew cfg sender nh periods s).2 = none ∧
      ((do_renew cfg sender nh periods s).1).registrations nh
        = some { r with
            expiry := some (e + periods * cfg.blocksPerRegistrationPeriod) } ∧
      ((do_renew cfg sender nh periods s).1).free sender
        = s.free sender - periods * cfg.feePerRegistrationPeriod ∧
      ((do_renew cfg sender nh periods s).1).reserved = s.reserved) := by
  refine ⟨?_, ?_, ?_⟩
  · intro hr he
    simp [do_renew, hr, he]
  · intro e hr he hle
    simp [do_renew, hr, he, is_expired, hle]
  · intro e hr he hlt hfee
    have hne : ¬ (e ≤ s.now) := Nat.not_le.mpr hlt
    refine ⟨?_, ?_, ?_, ?_⟩ <;>
      simp [do_renew, hr, he, is_expired, hne, payFee, hfee, fupdate, bupdate]

/-- Witness for C8: renewing the permanent registration 601 fails, the
registration 600 (expiry 50) fails at block 60 but succeeds at block 20
for 2 periods, charging caller 1 the fee 14 and moving the expiry to
150. -/
theorem C8_renew_witness :
    do_renew cfgEx 1 601 2 (mkS 20) = (mkS 20, some .RegistrationHasNoExpiry) ∧
    do_renew cfgEx 1 600 2 (mkS 60) = (mkS 60, some .RegistrationExpired) ∧
    ((do_renew cfgEx 1 600 2 (mkS 20)).2 = none ∧
      ((do_renew cfgEx 1 600 2 (mkS 20)).1).registrations 600
        = some ⟨6, 7, some 150, some 4⟩ ∧
      ((do_renew cfgEx 1 600 2 (mkS 20)).1).free 1 = (mkS 20).free 1 - 14 ∧
      ((do_renew cfgEx 1 600 2 (mkS 20)).1).reserved = (mkS 20).reserved) := by
  have t1 := (C8_renew cfgEx 1 601 2 (mkS 20) ⟨6, 7, none, none⟩).1 rfl rfl
  have t2 := (C8_renew cfgEx 1 600 2 (mkS 60) ⟨6, 7, some 50, some 4⟩).2.1
    50 rfl rfl (by decide)
  have t3 := (C8_renew cfgEx 1 600 2 (mkS 20) ⟨6, 7, some 50, some 4⟩).2.2
    50 rfl rfl (by decide) (by decide)
  exact ⟨t1, t2, t3.1, t3.2.1, t3.2.2.1, t3.2.2.2⟩

/-- C9: every engine operation is atomic — whenever an operation returns
an error, the returned state (stores and balances) is exactly the input
state; no error path leaves a partial effect.  The operations thread the
state explicitly, so this is a theorem about the order of checks and
mutations, not a consequence of an outer rollback. -/
theorem C9_atomicity (cfg : Config) (chF : List Nat → Nat → CommitmentHash)
    (nhF : List Nat → NameHash) (h2 : NameHash → NameHash → NameHash)
    (isManager : Bool) (sender owner new_owner new_controller address who : AccountId)
    (name label : List Nat) (secret periods : Nat) (h : CommitmentHash)
    (nh parent_hash label_hash : NameHash) (maybe_expiry : Option BlockNumber)
    (s : State) :
    ((do_commit cfg sender owner h s).2.isSome →
      (do_commit cfg sender owner h s).1 = s) ∧
    ((do_reveal cfg chF nhF sender name secret periods s).2.isSome →
      (do_reveal cfg chF nhF sender name secret periods s).1 = s) ∧
    ((remove_commitment cfg sender h s).2.isSome →
      (remove_commitment cfg sender h s).1 = s) ∧
    ((transfer sender new_owner nh s).2.isSome →
      (transfer sender new_owner nh s).1 = s) ∧
    ((set_controller sender nh new_controller s).2.isSome →
      (set_controller sender nh new_controller s).1 = s) ∧
    ((do_renew cfg sender nh periods s).2.isSome →
      (do_renew cfg sender nh periods s).1 = s) ∧
    ((set_record sender nh address s).2.isSome →
      (set_record sender nh address s).1 = s) ∧
    ((deregister sender nh s).2.isSome →
      (deregister sender nh s).1 = s) ∧
    ((deregister_subnode h2 sender parent_hash label_hash s).2.isSome →
      (deregister_subnode h2 sender parent_hash label_hash s).1 = s) ∧
    ((do_set_subnode_record cfg h2 nhF sender parent_hash label s).2.isSome →
      (do_set_subnode_record cfg h2 nhF sender parent_hash label s).1 = s) ∧
    ((do_set_subnode_owner h2 sender parent_hash label_hash who s).2.isSome →
      (do_set_subnode_owner h2 sender parent_hash label_hash who s).1 = s) ∧
    ((force_register isManager nh who maybe_expiry s).2.isSome →
      (force_register isManager nh who maybe_expiry s).1 = s) ∧
    ((force_deregister isManager nh s).2.isSome →
      (force_deregister isManager nh s).1 = s) := by
  refine ⟨?_, ?_, ?_, ?_, ?_, ?_, ?_, ?_, ?_, ?_, ?_, ?_, ?_⟩ <;>
    simp only [do_commit, do_reveal, remove_commitment, transfer,
      set_controller, do_renew, set_record, do_set_record, deregister,
      deregister_subnode, do_set_subnode_record, do_set_subnode_owner,
      force_register, force_deregister] <;>
    repeat' split
  all_goals intro hE
  all_goals first | rfl | simp at hE

/-- Witness for C9 on the concrete state at block 20: one failing call of
each operation leaves the state untouched (penniless caller 2 committing
at hash 55, reveal/removal of absent commitments, mutations of the absent
registration 999, subnode calls blocked by the live parent 600 or an
empty label, and force calls without the manager origin). -/
theorem C9_atomicity_witness :
    (do_commit cfgEx 2 3 55 (mkS 20)).1 = mkS 20 ∧
    (do_reveal cfgEx chEx nhEx 2 [] 0 1 (mkS 20)).1 = mkS 20 ∧
    (remove_commitment cfgEx 2 55 (mkS 20)).1 = mkS 20 ∧
    (transfer 2 4 999 (mkS 20)).1 = mkS 20 ∧
    (set_controller 2 999 5 (mkS 20)).1 = mkS 20 ∧
    (do_renew cfgEx 2 999 1 (mkS 20)).1 = mkS 20 ∧
    (set_record 2 999 42 (mkS 20)).1 = mkS 20 ∧
    (deregister 2 999 (mkS 20)).1 = mkS 20 ∧
    (deregister_subnode h2Ex 2 600 9 (mkS 20)).1 = mkS 20 ∧
    (do_set_subnode_record cfgEx h2Ex nhEx 2 600 [] (mkS 20)).1 = mkS 20 ∧
    (do_set_subnode_owner h2Ex 2 600 9 6 (mkS 20)).1 = mkS 20 ∧
    (force_register false 999 6 none (mkS 20)).1 = mkS 20 ∧
    (force_deregister false 999 (mkS 20)).1 = mkS 20 := by
  have t := C9_atomicity cfgEx chEx nhEx h2Ex false 2 3 4 5 42 6 [] [] 0 1 55
    999 600 9 none (mkS 20)
  exact ⟨t.1 rfl, t.2.1 rfl, t.2.2.1 rfl, t.2.2.2.1 rfl, t.2.2.2.2.1 rfl,
    t.2.2.2.2.2.1 rfl, t.2.2.2.2.2.2.1 rfl, t.2.2.2.2.2.2.2.1 rfl,
    t.2.2.2.2.2.2.2.2.1 rfl, t.2.2.2.2.2.2.2.2.2.1 rfl,
    t.2.2.2.2.2.2.2.2.2.2.1 rfl, t.2.2.2.2.2.2.2.2.2.2.2.1 rfl,
    t.2.2.2.2.2.2.2.2.2.2.2.2 rfl⟩

end NameService
